import Mathlib

/-!
Verification of the Patient Gateway (Django app `patients`).

The gateway translates HTTP requests into calls against an upstream FHIR
server and reshapes the replies.  We shallowly embed each request handler
from `patients/views.py` as a pure Lean function: the single upstream HTTP
call a handler makes is passed in as an explicit argument (an `Upstream`
value describing either a response or a transport error), and the handler
returns the audit entries it writes, the HTTP status it responds with, and
the response body.  Python dictionary lookups on upstream JSON are embedded
via `JField`, which distinguishes an absent key, a key bound to JSON
`null` (Python `None`), and a key bound to a value — the three cases
`dict.get` treats differently.  Operations that can raise a Python
exception (indexing an empty list, iterating or joining `None`) return
`Option`, with `none` standing for the raised exception.
-/

namespace Pms

/-- JSON object field as seen by Python `dict.get`: the key may be absent,
bound to `null` (Python `None`), or bound to a value. -/
inductive JField (α : Type) where
  | absent
  | null
  | val (v : α)
deriving DecidableEq, Repr

/-- Python `d.get(k)` (no default): absent and `null` both give `None`. -/
def JField.toOpt {α : Type} : JField α → Option α
  | .absent => none
  | .null => none
  | .val v => some v

/-- Python `d.get(k, default)`: absent gives the default, `null` gives
`None` (kept as `Option.none`), a value gives the value. -/
def JField.getOr {α : Type} (f : JField α) (d : α) : Option α :=
  match f with
  | .absent => some d
  | .null => none
  | .val v => some v

/-- Result of one upstream HTTP call as the handler observes it: either a
response with a status code and a body (whose JSON decode may fail), or a
transport exception raised by `requests`. -/
inductive Upstream (α : Type) where
  | resp (status_code : Nat) (body : Except String α)
  | exn (msg : String)
deriving Repr

/-- Embeds `requests.Response.raise_for_status`: it raises `HTTPError`
exactly for 4xx and 5xx status codes. -/
def raisesForStatus (code : Nat) : Bool := 400 ≤ code && code < 600

/-- Text of the `HTTPError` raised by `raise_for_status` (the claims never
inspect it beyond being the error string surfaced to the client). -/
def httpErrorText (code : Nat) : String := toString code ++ " Error"

/-- Row written by `log_operation` into the `PatientLog` table
(`patients/models.py`); the timestamp is auto-assigned by the database and
not part of the handler behaviour. -/
structure AuditEntry where
  operation : String
  patient_id : Option String
  status : String
  message : String
deriving DecidableEq, Repr

/-! ## Python string primitives

Executable embeddings of the Python string operations the handlers use,
defined over the character list of a `String` so that concrete instances
evaluate. -/

/-- Python `str.strip()`: drop leading and trailing whitespace. -/
def pyStrip (s : String) : String :=
  ⟨((s.data.dropWhile Char.isWhitespace).reverse.dropWhile Char.isWhitespace).reverse⟩

/-- Python space-join (str.join with a single-space separator):
interleave one space between the elements. -/
def pyJoinSpace : List String → String
  | [] => ""
  | [s] => s
  | s :: rest => s ++ " " ++ pyJoinSpace rest

/-- Splits a character list at every occurrence of `c` (occurrences are
dropped, empty chunks kept), as Python `str.split(c)` does. -/
def splitCharList (c : Char) : List Char → List (List Char)
  | [] => [[]]
  | x :: xs =>
    match splitCharList c xs with
    | [] => [[x]]
    | g :: gs => if x = c then [] :: g :: gs else (x :: g) :: gs

/-- Python str.split at dash characters. -/
def pySplitDash (s : String) : List String :=
  (splitCharList '-' s.data).map String.mk

def digitsVal : List Char → Nat → Nat
  | [], acc => acc
  | c :: cs, acc => digitsVal cs (acc * 10 + (c.toNat - '0'.toNat))

/-- Python `int(s)` restricted to non-empty all-digit strings (the shape
date parsing feeds it); anything else fails. -/
def parseDigits (s : String) : Option Nat :=
  if s.data ≠ [] ∧ s.data.all Char.isDigit then some (digitsVal s.data 0) else none

/-! ## Serializer (`patients/serializers.py`)

`PatientSerializer` has four writable fields: `first_name` and `last_name`
(`CharField(max_length=100)`, required, blank not allowed, whitespace
trimmed), `gender` (`ChoiceField` over male/female/other/unknown) and
`birth_date` (`DateField`, ISO `YYYY-MM-DD` input). -/

/-- Raw request data for create/update: each serializer field may be
missing from the request body. -/
structure RawPatientData where
  first_name : Option String
  last_name : Option String
  gender : Option String
  birth_date : Option String
deriving DecidableEq, Repr

/-- Result of `serializer.validated_data` when validation succeeds. -/
structure ValidatedPatient where
  first_name : String
  last_name : String
  gender : String
  birth_date : String
deriving DecidableEq, Repr

/-- DRF `CharField(max_length=n)`: required, trims whitespace, rejects the
empty string and over-long values. -/
def runCharField (maxLength : Nat) (v : Option String) : Option String :=
  match v with
  | none => none
  | some s =>
    let t := pyStrip s
    if t = "" then none
    else if t.length ≤ maxLength then some t
    else none

/-- DRF `ChoiceField(choices=...)`: required, value must be a listed choice. -/
def runChoiceField (choices : List String) (v : Option String) : Option String :=
  match v with
  | none => none
  | some s => if s ∈ choices then some s else none

def isLeap (y : Nat) : Bool := (y % 4 = 0 && y % 100 ≠ 0) || y % 400 = 0

def daysInMonth (y m : Nat) : Nat :=
  if m = 2 then (if isLeap y then 29 else 28)
  else if m = 4 || m = 6 || m = 9 || m = 11 then 30
  else 31

/-- DRF `DateField`: accepts an ISO `YYYY-MM-DD` string denoting a valid
calendar date; `str(...)` of the parsed date gives the same string back. -/
def runDateField (v : Option String) : Option String :=
  match v with
  | none => none
  | some s =>
    match pySplitDash s with
    | [ys, ms, ds] =>
      match parseDigits ys, parseDigits ms, parseDigits ds with
      | some y, some m, some d =>
        if ys.length = 4 && ms.length = 2 && ds.length = 2
            && 1 ≤ m && m ≤ 12 && 1 ≤ d && d ≤ daysInMonth y m
        then some s else none
      | _, _, _ => none
    | _ => none

def GENDER_CHOICES : List String := ["male", "female", "other", "unknown"]

/-- Embeds `PatientSerializer(data=...).is_valid()` together with
`validated_data`: `some` on success, `none` when any field fails. -/
def PatientSerializer.validate (d : RawPatientData) : Option ValidatedPatient :=
  match runCharField 100 d.first_name, runCharField 100 d.last_name,
        runChoiceField GENDER_CHOICES d.gender, runDateField d.birth_date with
  | some fn, some ln, some g, some bd => some ⟨fn, ln, g, bd⟩
  | _, _, _, _ => none

/-! ## Create endpoint (`create_patient` in `patients/views.py`) -/

/-- JSON body of the create endpoint response. -/
inductive CreateBody where
  | created (id : Option String) (message : String)
  | errorText (e : String)
  | fieldErrors
deriving DecidableEq, Repr

/-- Observable outcome of one call to the create handler: whether the
upstream POST was issued, the audit rows written, and the HTTP reply. -/
structure CreateOutcome where
  upstream_called : Bool
  audit : List AuditEntry
  http_status : Nat
  body : CreateBody
deriving DecidableEq, Repr

/-- Embeds `create_patient`: validate; on success POST to upstream,
`raise_for_status`, read `id` from the JSON body, log CREATE success and
reply 201; any exception logs CREATE failed and replies 400; validation
failure replies 400 with the field errors, calling nothing. -/
def create_patient (d : RawPatientData) (up : Upstream (JField String)) :
    CreateOutcome :=
  match PatientSerializer.validate d with
  | none => ⟨false, [], 400, .fieldErrors⟩
  | some _v =>
    match up with
    | .exn e => ⟨true, [⟨"CREATE", none, "failed", e⟩], 400, .errorText e⟩
    | .resp code body =>
      if raisesForStatus code then
        ⟨true, [⟨"CREATE", none, "failed", httpErrorText code⟩], 400,
          .errorText (httpErrorText code)⟩
      else
        match body with
        | .error e => ⟨true, [⟨"CREATE", none, "failed", e⟩], 400, .errorText e⟩
        | .ok idField =>
          ⟨true, [⟨"CREATE", idField.toOpt, "success", "Patient created"⟩],
            201, .created idField.toOpt "Patient created"⟩

/-! ## Upstream resource shapes

Shapes of the JSON values the handlers read from upstream bodies.  A FHIR
`Patient` carries `name` (a list of structures with `given`, a list of
strings, and `family`, a string), plus `id`, `gender`, `birthDate`. -/

/-- One element of the upstream `name` array. -/
structure HumanNameData where
  given : JField (List String)
  family : JField String
deriving DecidableEq, Repr

/-- Upstream `Patient` resource body as the handlers read it. -/
structure PatientResourceData where
  id : JField String
  name : JField (List HumanNameData)
  gender : JField String
  birthDate : JField String
deriving DecidableEq, Repr

/-- The empty dict `{}` used as default first name element. -/
def emptyNameData : HumanNameData := ⟨.absent, .absent⟩

/-- The empty dict `{}` used as default resource in bundle entries. -/
def emptyResourceData : PatientResourceData := ⟨.absent, .absent, .absent, .absent⟩

/-- Embeds `patient.get("name", [{}])[0]`: absent key falls back to `[{}]`
whose first element is `{}`; a `null` value makes the subscript raise
`TypeError`; an empty list raises `IndexError` (`none` models the raise). -/
def firstNameData (f : JField (List HumanNameData)) : Option HumanNameData :=
  match f with
  | .absent => some emptyNameData
  | .null => none
  | .val xs => xs.head?

/-- Embeds `name_data.get("given", [""])[0]`: absent falls back to `[""]`
giving `""`; `null` raises on subscript; an empty list raises `IndexError`. -/
def firstGiven (f : JField (List String)) : Option String :=
  match f with
  | .absent => some ""
  | .null => none
  | .val xs => xs.head?

/-- Embeds the space-join of `name_data.get` of the given list with the
empty list as default: absent joins the empty list; `null` makes the join
raise `TypeError`; a list is space-joined. -/
def joinedGiven (f : JField (List String)) : Option String :=
  match f with
  | .absent => some ""
  | .null => none
  | .val xs => some (pyJoinSpace xs)

/-- Embeds the use of `name_data.get` of the family field (default the
empty string) inside an f-string: absent gives the default empty string,
`null` gives `None` which formats as the text `None`, a value gives the
value. -/
def familyText (f : JField String) : String :=
  match f with
  | .absent => ""
  | .null => "None"
  | .val s => s

/-- Name flattening as written identically in `search_patient`,
`list_patients_by_last_updated` and `search_patients_view`: the f-string
interpolating the space-joined given names, one space, and the family
field, then stripped at both edges.
Fails (exception) only when `given` is bound to `null`. -/
def flattenName (nd : HumanNameData) : Option String :=
  (joinedGiven nd.given).map (fun g => pyStrip (g ++ " " ++ familyText nd.family))

/-! ## Patient detail endpoint (`patient_detail` in `patients/views.py`) -/

/-- JSON body returned by the GET branch on success: the simplified
`PatientView` shape.  `Option.none` in a field renders as JSON `null`. -/
structure DetailView where
  id : Option String
  first_name : String
  last_name : Option String
  gender : Option String
  birth_date : Option String
deriving DecidableEq, Repr

/-- Response of the GET branch. -/
inductive DetailBody where
  | view (v : DetailView)
  | errorText (e : String)
deriving DecidableEq, Repr

structure DetailOutcome where
  http_status : Nat
  body : DetailBody
deriving DecidableEq, Repr

/-- Text of the Python exception raised by a bad subscript, join or
iteration (`IndexError`/`TypeError`); the handlers only forward it as an
opaque error string and no claim inspects it, so one text stands for all. -/
def pyErrorText : String := "list index out of range"

/-- Embeds the GET branch of `patient_detail`: fetch, `raise_for_status`,
decode, flatten first name/family/gender/birthDate into the view; any
raised exception is mapped to a 400 reply carrying the error text. -/
def patient_detail_get (up : Upstream PatientResourceData) : DetailOutcome :=
  match up with
  | .exn e => ⟨400, .errorText e⟩
  | .resp code body =>
    if raisesForStatus code then ⟨400, .errorText (httpErrorText code)⟩
    else
      match body with
      | .error e => ⟨400, .errorText e⟩
      | .ok p =>
        match firstNameData p.name with
        | none => ⟨400, .errorText pyErrorText⟩
        | some nd =>
          match firstGiven nd.given with
          | none => ⟨400, .errorText pyErrorText⟩
          | some fn =>
            ⟨200, .view ⟨p.id.toOpt, fn, nd.family.getOr "", p.gender.toOpt,
              p.birthDate.toOpt⟩⟩

/-- JSON body of the PUT branch response. -/
inductive UpdateBody where
  | updated (id : String) (message : String)
  | errorText (e : String)
  | fieldErrors
deriving DecidableEq, Repr

structure UpdateOutcome where
  upstream_called : Bool
  audit : List AuditEntry
  http_status : Nat
  body : UpdateBody
deriving DecidableEq, Repr

/-- Embeds the PUT branch of `patient_detail`: validate as in create; on
success PUT to upstream and `raise_for_status`; log UPDATE success/failed
accordingly; validation failure replies 400 without calling upstream. -/
def patient_detail_put (patient_id : String) (d : RawPatientData)
    (up : Upstream Unit) : UpdateOutcome :=
  match PatientSerializer.validate d with
  | none => ⟨false, [], 400, .fieldErrors⟩
  | some _v =>
    match up with
    | .exn e => ⟨true, [⟨"UPDATE", some patient_id, "failed", e⟩], 400, .errorText e⟩
    | .resp code _body =>
      if raisesForStatus code then
        ⟨true, [⟨"UPDATE", some patient_id, "failed", httpErrorText code⟩], 400,
          .errorText (httpErrorText code)⟩
      else
        ⟨true, [⟨"UPDATE", some patient_id, "success", "Patient updated"⟩], 200,
          .updated patient_id "Patient updated successfully"⟩

/-- JSON body of the DELETE branch response. -/
inductive DeleteBody where
  | message (m : String)
  | errorText (e : String)
deriving DecidableEq, Repr

structure DeleteOutcome where
  audit : List AuditEntry
  http_status : Nat
  body : DeleteBody
deriving DecidableEq, Repr

/-- Result of the upstream DELETE call: a status code with the raw
response text, or a transport exception. -/
inductive DeleteUpstream where
  | resp (status_code : Nat) (text : String)
  | exn (msg : String)
deriving DecidableEq, Repr

/-- Embeds the DELETE branch of `patient_detail`: status 200 or 204 logs
DELETE success and replies 204; any other status logs DELETE failed with
the response text and replies 404 with error text Patient not found; a
transport exception logs DELETE failed and replies 400. -/
def patient_detail_delete (patient_id : String) (up : DeleteUpstream) :
    DeleteOutcome :=
  match up with
  | .resp code text =>
    if code = 200 ∨ code = 204 then
      ⟨[⟨"DELETE", some patient_id, "success", "Patient deleted"⟩], 204,
        .message "Patient deleted"⟩
    else
      ⟨[⟨"DELETE", some patient_id, "failed", text⟩], 404,
        .errorText "Patient not found"⟩
  | .exn e =>
    ⟨[⟨"DELETE", some patient_id, "failed", e⟩], 400, .errorText e⟩

/-! ## Count endpoint (`all_patient_count` in `patients/views.py`) -/

/-- JSON body of the count endpoint response. -/
inductive CountBody where
  | count (n : Option Int)
  | errorText (e : String)
deriving DecidableEq, Repr

structure CountOutcome where
  http_status : Nat
  body : CountBody
deriving DecidableEq, Repr

/-- Embeds `all_patient_count`: GET the summary count, `raise_for_status`,
reply 200 with `r.json().get("total", 0)`; any exception replies 400.  The
upstream body is the `total` field of the decoded JSON. -/
def all_patient_count (up : Upstream (JField Int)) : CountOutcome :=
  match up with
  | .exn e => ⟨400, .errorText e⟩
  | .resp code body =>
    if raisesForStatus code then ⟨400, .errorText (httpErrorText code)⟩
    else
      match body with
      | .error e => ⟨400, .errorText e⟩
      | .ok total => ⟨200, .count (total.getOr 0)⟩

/-! ## Search and list endpoints -/

/-- One element of the upstream bundle `entry` array. -/
structure BundleEntry where
  resource : JField PatientResourceData
deriving DecidableEq, Repr

/-- Upstream search/list response body as the handlers read it. -/
structure Bundle where
  entry : JField (List BundleEntry)
deriving DecidableEq, Repr

/-- Embeds `r.json().get("entry", [])` as the object of a `for` loop:
absent iterates the empty list, `null` raises `TypeError`. -/
def entriesOf (f : JField (List BundleEntry)) : Option (List BundleEntry) :=
  match f with
  | .absent => some []
  | .null => none
  | .val xs => some xs

/-- Embeds `entry.get` of the resource field with the empty dict as
default: absent falls back to the empty dict; `null` makes the next
`p.get` raise `AttributeError`. -/
def entryResource (e : BundleEntry) : Option PatientResourceData :=
  match e.resource with
  | .absent => some emptyResourceData
  | .null => none
  | .val p => some p

/-- Row appended by the search loop for one resource. -/
structure SearchRow where
  id : Option String
  name : String
  gender : Option String
  birth_date : Option String
deriving DecidableEq, Repr

/-- Builds one search result row from a resource: the first name element
(with the one-empty-dict default) then the flattened full name. -/
def searchRowOf (p : PatientResourceData) : Option SearchRow :=
  match firstNameData p.name with
  | none => none
  | some nd =>
    (flattenName nd).map fun full =>
      ⟨p.id.toOpt, full, p.gender.toOpt, p.birthDate.toOpt⟩

/-- Row appended by the last-updated list loop for one resource. -/
structure ListRow where
  id : Option String
  name : String
deriving DecidableEq, Repr

/-- Builds one list row from a resource (id and flattened name only). -/
def listRowOf (p : PatientResourceData) : Option ListRow :=
  match firstNameData p.name with
  | none => none
  | some nd => (flattenName nd).map fun full => ⟨p.id.toOpt, full⟩

/-- Runs the per-entry loop body over a bundle entry list: extract the
resource, build a row, append; the first raised exception aborts. -/
def processEntries {ρ : Type} (rowOf : PatientResourceData → Option ρ) :
    List BundleEntry → Option (List ρ)
  | [] => some []
  | e :: rest =>
    match entryResource e with
    | none => none
    | some p =>
      match rowOf p with
      | none => none
      | some row => (processEntries rowOf rest).map (row :: ·)

/-- JSON body of the search endpoint response. -/
inductive SearchBody where
  | results (count : Nat) (rows : List SearchRow)
  | errorText (e : String)
deriving DecidableEq, Repr

structure SearchOutcome where
  upstream_called : Bool
  http_status : Nat
  body : SearchBody
deriving DecidableEq, Repr

/-- Embeds `search_patient`: strip the three query parameters; if all are
empty reply 400 without calling upstream; otherwise query upstream,
flatten each entry, reply 404 when no rows were built and 200 with
count and results otherwise; any exception replies 400. -/
def search_patient (nameQ idQ birthQ : String) (up : Upstream Bundle) :
    SearchOutcome :=
  let name := pyStrip nameQ
  let patient_id := pyStrip idQ
  let birth_date := pyStrip birthQ
  if name = "" ∧ patient_id = "" ∧ birth_date = "" then
    ⟨false, 400, .errorText "Provide at least one search parameter"⟩
  else
    match up with
    | .exn e => ⟨true, 400, .errorText e⟩
    | .resp code body =>
      if raisesForStatus code then ⟨true, 400, .errorText (httpErrorText code)⟩
      else
        match body with
        | .error e => ⟨true, 400, .errorText e⟩
        | .ok b =>
          match entriesOf b.entry with
          | none => ⟨true, 400, .errorText pyErrorText⟩
          | some entries =>
            match processEntries searchRowOf entries with
            | none => ⟨true, 400, .errorText pyErrorText⟩
            | some results =>
              if results.isEmpty then
                ⟨true, 404, .errorText "No patients found"⟩
              else
                ⟨true, 200, .results results.length results⟩

/-- JSON body of the last-updated list endpoint response. -/
inductive ListBody where
  | results (count : Nat) (rows : List ListRow)
  | errorText (e : String)
deriving DecidableEq, Repr

structure ListOutcome where
  http_status : Nat
  body : ListBody
deriving DecidableEq, Repr

/-- Embeds `list_patients_by_last_updated`: forward the `lastUpdated`
parameter verbatim to upstream, flatten each entry, always reply 200 with
count and results on success (also when empty); any exception replies
400. -/
def list_patients_by_last_updated (lastUpdated : String) (up : Upstream Bundle) :
    ListOutcome :=
  match up with
  | .exn e => ⟨400, .errorText e⟩
  | .resp code body =>
    if raisesForStatus code then ⟨400, .errorText (httpErrorText code)⟩
    else
      match body with
      | .error e => ⟨400, .errorText e⟩
      | .ok b =>
        match entriesOf b.entry with
        | none => ⟨400, .errorText pyErrorText⟩
        | some entries =>
          match processEntries listRowOf entries with
          | none => ⟨400, .errorText pyErrorText⟩
          | some results => ⟨200, .results results.length results⟩

/-! ## HTML views (`patients/views.py`, bottom half) -/

/-- Python truthiness of `p.get("name")` as tested by
`if not p.get("name"): continue` — absent, `null` and the empty list are
all falsy. -/
def nameTruthy (f : JField (List HumanNameData)) : Bool :=
  match f with
  | .val (_ :: _) => true
  | _ => false

/-- Row appended by the HTML recency list for one resource (same
dictionary shape as the detail view). -/
def htmlRowOf (p : PatientResourceData) : Option DetailView :=
  match firstNameData p.name with
  | none => none
  | some nd =>
    (firstGiven nd.given).map fun fn =>
      ⟨p.id.toOpt, fn, nd.family.getOr "", p.gender.toOpt, p.birthDate.toOpt⟩

/-- Loop of `list_patients_view`: entries whose resource has a falsy
`name` are skipped with `continue`; the rest are flattened into rows; a
raised exception aborts the request. -/
def processHtmlListEntries : List BundleEntry → Option (List DetailView)
  | [] => some []
  | e :: rest =>
    match entryResource e with
    | none => none
    | some p =>
      if nameTruthy p.name then
        match htmlRowOf p with
        | none => none
        | some row => (processHtmlListEntries rest).map (row :: ·)
      else processHtmlListEntries rest

/-- Result of rendering the HTML recency list: a page with patient rows,
or an unhandled exception (the view has no try/except). -/
inductive HtmlListResult where
  | page (patients : List DetailView)
  | unhandledError
deriving DecidableEq, Repr

/-- Embeds `list_patients_view`: fetch up to 50 entries sorted by recency;
on status 200 build the rows, skipping nameless entries; on any other
status render an empty list; exceptions propagate unhandled. -/
def list_patients_view (up : Upstream Bundle) : HtmlListResult :=
  match up with
  | .exn _ => .unhandledError
  | .resp code body =>
    if code = 200 then
      match body with
      | .error _ => .unhandledError
      | .ok b =>
        match entriesOf b.entry with
        | none => .unhandledError
        | some entries =>
          match processHtmlListEntries entries with
          | none => .unhandledError
          | some patients => .page patients
    else .page []

/-- Observable outcome of a POST to one of the HTML mutating views:
how many upstream requests were issued, the audit rows written, and the
view redirected to. -/
structure HtmlMutationOutcome where
  upstream_calls : Nat
  audit : List AuditEntry
  redirect_to : String
deriving DecidableEq, Repr

/-- Embeds the POST branch of `create_patient_view`: it POSTs the form
fields to upstream, never inspects the response, writes no audit row, and
redirects to the recency list unconditionally. -/
def create_patient_view_post (d : RawPatientData) : HtmlMutationOutcome :=
  ⟨1, [], "list_patients_view"⟩

/-- Embeds the POST branch of `update_patient_view`: it GETs the current
resource (for the form), PUTs the form fields, never inspects the PUT
response, writes no audit row, and redirects to the recency list
unconditionally. -/
def update_patient_view_post (patient_id : String) (d : RawPatientData) :
    HtmlMutationOutcome :=
  ⟨2, [], "list_patients_view"⟩

/-- Embeds the POST branch of `delete_patient_view`: it GETs the current
resource (for the confirmation page), DELETEs it, never inspects the
DELETE response, writes no audit row, and redirects to the recency list
unconditionally. -/
def delete_patient_view_post (patient_id : String) : HtmlMutationOutcome :=
  ⟨2, [], "list_patients_view"⟩

/-! ## Theorems about the claims -/

/-- C1: for every create request whose fields pass validation and whose
upstream POST returns a 2xx response with a decoded body, the handler
writes exactly one audit entry (operation CREATE, status success) and
replies 201 with the id taken from the upstream body. -/
theorem create_valid_2xx_audits_once_and_returns_201
    (d : RawPatientData) (v : ValidatedPatient)
    (hv : PatientSerializer.validate d = some v)
    (code : Nat) (h1 : 200 ≤ code) (h2 : code < 300) (idField : JField String) :
    create_patient d (.resp code (.ok idField)) =
      ⟨true, [⟨"CREATE", idField.toOpt, "success", "Patient created"⟩], 201,
        .created idField.toOpt "Patient created"⟩ := by
  have hr : raisesForStatus code = false := by
    simp only [raisesForStatus, Bool.and_eq_false_iff, decide_eq_false_iff_not,
      not_le, not_lt]
    omega
  simp [create_patient, hv, hr]

/-- Witness for C1 at a concrete valid input and a 201 upstream reply. -/
theorem create_valid_2xx_witness :
    create_patient ⟨some "Jane", some "Doe", some "female", some "2000-01-01"⟩
        (.resp 201 (.ok (.val "123"))) =
      ⟨true, [⟨"CREATE", some "123", "success", "Patient created"⟩], 201,
        .created (some "123") "Patient created"⟩ :=
  create_valid_2xx_audits_once_and_returns_201
    ⟨some "Jane", some "Doe", some "female", some "2000-01-01"⟩
    ⟨"Jane", "Doe", "female", "2000-01-01"⟩ (by decide) 201 (by decide)
    (by decide) (.val "123")

/-- C4: for every create request whose fields fail validation, the handler
issues no upstream call, writes no audit entry, and replies 400 with the
field errors. -/
theorem create_invalid_no_call_no_audit
    (d : RawPatientData) (up : Upstream (JField String))
    (hv : PatientSerializer.validate d = none) :
    create_patient d up = ⟨false, [], 400, .fieldErrors⟩ := by
  simp [create_patient, hv]

/-- Witness for C4 at a concrete invalid input (all fields missing). -/
theorem create_invalid_witness :
    create_patient ⟨none, none, none, none⟩ (.exn "unreachable") =
      ⟨false, [], 400, .fieldErrors⟩ :=
  create_invalid_no_call_no_audit ⟨none, none, none, none⟩
    (.exn "unreachable") (by decide)

/-- C5: for every search request whose three filter parameters are all
empty or whitespace-only after stripping, the handler replies 400 without
issuing any upstream call. -/
theorem search_all_blank_400_no_upstream
    (nameQ idQ birthQ : String) (up : Upstream Bundle)
    (h1 : pyStrip nameQ = "") (h2 : pyStrip idQ = "")
    (h3 : pyStrip birthQ = "") :
    search_patient nameQ idQ birthQ up =
      ⟨false, 400, .errorText "Provide at least one search parameter"⟩ := by
  simp [search_patient, h1, h2, h3]

/-- Witness for C5 at concrete whitespace-only parameters. -/
theorem search_all_blank_witness :
    search_patient "  " "" " \t " (.exn "unreachable") =
      ⟨false, 400, .errorText "Provide at least one search parameter"⟩ :=
  search_all_blank_400_no_upstream "  " "" " \t " (.exn "unreachable")
    (by decide) (by decide) (by decide)

/-- C2: for every delete-by-id request that gets an upstream response,
status 200 or 204 logs one DELETE success entry and replies with the
no-content status, while any other status logs one DELETE failed entry
whose message is the upstream response body and replies 404 with error
text Patient not found. -/
theorem delete_status_mapping (pid : String) (code : Nat) (text : String) :
    (code = 200 ∨ code = 204 →
      patient_detail_delete pid (.resp code text) =
        ⟨[⟨"DELETE", some pid, "success", "Patient deleted"⟩], 204,
          .message "Patient deleted"⟩)
    ∧ (code ≠ 200 → code ≠ 204 →
      patient_detail_delete pid (.resp code text) =
        ⟨[⟨"DELETE", some pid, "failed", text⟩], 404,
          .errorText "Patient not found"⟩) := by
  constructor
  · intro h
    simp only [patient_detail_delete]
    rw [if_pos h]
  · intro h1 h2
    simp only [patient_detail_delete]
    rw [if_neg (by tauto)]

/-- Witness for C2 at upstream status 204 and at upstream status 404. -/
theorem delete_status_mapping_witness :
    patient_detail_delete "7" (.resp 204 "") =
      ⟨[⟨"DELETE", some "7", "success", "Patient deleted"⟩], 204,
        .message "Patient deleted"⟩
    ∧ patient_detail_delete "7" (.resp 404 "gone") =
      ⟨[⟨"DELETE", some "7", "failed", "gone"⟩], 404,
        .errorText "Patient not found"⟩ :=
  ⟨(delete_status_mapping "7" 204 "").1 (Or.inr rfl),
   (delete_status_mapping "7" 404 "gone").2 (by decide) (by decide)⟩

/-- C3 counterexample: a create performed through the HTML page variant
writes zero audit rows, so not every create outcome results in an audit
log row. -/
theorem html_create_no_audit_cex :
    (create_patient_view_post
        ⟨some "Jane", some "Doe", some "female", some "2000-01-01"⟩).audit = []
    := rfl

/-- C3 amended: every create, update and delete outcome of the JSON API
handlers in which the upstream call is attempted writes exactly one audit
row, but the HTML-page variants of these operations write no audit rows
at all. -/
theorem api_mutations_audit_html_variants_do_not
    (d : RawPatientData) (hv : (PatientSerializer.validate d).isSome)
    (pid : String) (upc : Upstream (JField String)) (upu : Upstream Unit)
    (upd : DeleteUpstream) :
    (create_patient d upc).audit.length = 1
    ∧ (patient_detail_put pid d upu).audit.length = 1
    ∧ (patient_detail_delete pid upd).audit.length = 1
    ∧ (∀ d2 : RawPatientData, (create_patient_view_post d2).audit = [])
    ∧ (∀ (pid2 : String) (d2 : RawPatientData),
        (update_patient_view_post pid2 d2).audit = [])
    ∧ (∀ pid2 : String, (delete_patient_view_post pid2).audit = []) := by
  obtain ⟨v, hv⟩ := Option.isSome_iff_exists.mp hv
  refine ⟨?_, ?_, ?_, fun d2 => rfl, fun pid2 d2 => rfl, fun pid2 => rfl⟩
  · cases upc with
    | exn e => simp [create_patient, hv]
    | resp code body =>
      cases body with
      | error e => simp [create_patient, hv]; split <;> rfl
      | ok idField => simp [create_patient, hv]; split <;> rfl
  · cases upu with
    | exn e => simp [patient_detail_put, hv]
    | resp code body => simp [patient_detail_put, hv]; split <;> rfl
  · cases upd with
    | exn e => rfl
    | resp code text => simp only [patient_detail_delete]; split <;> rfl

/-- Witness for the amended C3 at concrete inputs. -/
theorem api_mutations_audit_witness :
    (create_patient ⟨some "Jane", some "Doe", some "female", some "2000-01-01"⟩
        (.resp 500 (.error "boom"))).audit.length = 1
    ∧ (create_patient_view_post ⟨none, none, none, none⟩).audit = [] := by
  have h := api_mutations_audit_html_variants_do_not
    ⟨some "Jane", some "Doe", some "female", some "2000-01-01"⟩ (by decide)
    "7" (.resp 500 (.error "boom")) (.exn "x") (.exn "x")
  exact ⟨h.1, h.2.2.2.1 ⟨none, none, none, none⟩⟩

/-- C6: name flattening is pure and joins the given names with single
spaces, appends a space and the family name, then strips the edges; in
particular the three cited instances evaluate as the spec states. -/
theorem flattenName_spec :
    (∀ (gs : List String) (fam : String),
      flattenName ⟨.val gs, .val fam⟩ =
        some (pyStrip (pyJoinSpace gs ++ " " ++ fam)))
    ∧ flattenName ⟨.val ["Jane", "Q"], .val "Doe"⟩ = some "Jane Q Doe"
    ∧ flattenName ⟨.val [], .val "Doe"⟩ = some "Doe"
    ∧ flattenName ⟨.absent, .absent⟩ = some "" :=
  ⟨fun gs fam => rfl, by decide, by decide, by decide⟩

/-- Helper: a 2xx status never triggers `raise_for_status`. -/
theorem raisesForStatus_eq_false_of_2xx (code : Nat) (h1 : 200 ≤ code)
    (h2 : code < 300) : raisesForStatus code = false := by
  simp only [raisesForStatus, Bool.and_eq_false_iff, decide_eq_false_iff_not,
    not_le, not_lt]
  omega

/-- C7: on an upstream 2xx response carrying zero entries, the JSON search
endpoint replies 404 with a not-found error, while the last-updated list
endpoint replies 200 with count 0 and an empty results list. -/
theorem search_404_but_list_200_on_zero_entries
    (nameQ idQ birthQ : String)
    (hq : ¬(pyStrip nameQ = "" ∧ pyStrip idQ = "" ∧ pyStrip birthQ = ""))
    (code : Nat) (h1 : 200 ≤ code) (h2 : code < 300)
    (lastUpdated : String) (b : Bundle) (hb : entriesOf b.entry = some []) :
    search_patient nameQ idQ birthQ (.resp code (.ok b)) =
      ⟨true, 404, .errorText "No patients found"⟩
    ∧ list_patients_by_last_updated lastUpdated (.resp code (.ok b)) =
      ⟨200, .results 0 []⟩ := by
  have hr := raisesForStatus_eq_false_of_2xx code h1 h2
  constructor
  · simp only [search_patient]
    rw [if_neg hq]
    simp [hr, hb, processEntries]
  · simp [list_patients_by_last_updated, hr, hb, processEntries]

/-- Witness for C7 at a concrete search and an empty concrete bundle. -/
theorem search_list_zero_entries_witness :
    search_patient "John" "" "" (.resp 200 (.ok ⟨.val []⟩)) =
      ⟨true, 404, .errorText "No patients found"⟩
    ∧ list_patients_by_last_updated "" (.resp 200 (.ok ⟨.val []⟩)) =
      ⟨200, .results 0 []⟩ :=
  search_404_but_list_200_on_zero_entries "John" "" "" (by decide) 200
    (by decide) (by decide) "" ⟨.val []⟩ (by decide)

/-- Runs a fallible builder over a list, keeping all results and failing
on the first failure (the shape of the Python for-append loops). -/
def optTraverse {α β : Type} (f : α → Option β) : List α → Option (List β)
  | [] => some []
  | a :: as =>
    match f a with
    | none => none
    | some b => (optTraverse f as).map (b :: ·)

/-- C8: the rows produced by the HTML recency list are exactly the rows of
the entries whose resource has a truthy `name` (present, non-null,
non-empty); every entry whose resource lacks a name contributes nothing
to the returned list. -/
theorem html_list_rows_are_exactly_named_entries
    (entries : List BundleEntry) :
    processHtmlListEntries entries =
      (optTraverse entryResource entries).bind
        (fun ps => optTraverse htmlRowOf
          (ps.filter fun p => nameTruthy p.name)) := by
  induction entries with
  | nil => rfl
  | cons e rest ih =>
    cases he : entryResource e with
    | none => simp [processHtmlListEntries, optTraverse, he]
    | some p =>
      by_cases hn : nameTruthy p.name
      · cases hres : optTraverse entryResource rest with
        | none =>
          cases hrow : htmlRowOf p <;>
            simp [processHtmlListEntries, optTraverse, he, hn, hrow, hres, ih]
        | some ps =>
          cases hrow : htmlRowOf p <;>
            simp [processHtmlListEntries, optTraverse, he, hn, hrow, hres, ih,
              List.filter_cons]
      · simp only [Bool.not_eq_true] at hn
        cases hres : optTraverse entryResource rest with
        | none =>
          simp [processHtmlListEntries, optTraverse, he, hn, hres, ih]
        | some ps =>
          simp [processHtmlListEntries, optTraverse, he, hn, hres, ih,
            List.filter_cons]

/-- C9: on an upstream 2xx response, the count endpoint reports the
`total` field of the body, and reports 0 when the field is absent. -/
theorem count_reports_total_defaulting_zero
    (code : Nat) (h1 : 200 ≤ code) (h2 : code < 300) :
    (∀ n : Int, all_patient_count (.resp code (.ok (.val n))) =
        ⟨200, .count (some n)⟩)
    ∧ all_patient_count (.resp code (.ok .absent)) = ⟨200, .count (some 0)⟩ := by
  have hr := raisesForStatus_eq_false_of_2xx code h1 h2
  exact ⟨fun n => by simp [all_patient_count, hr, JField.getOr],
    by simp [all_patient_count, hr, JField.getOr]⟩

/-- Witness for C9 at status 200 with total 5 and with total absent. -/
theorem count_reports_total_witness :
    all_patient_count (.resp 200 (.ok (.val 5))) = ⟨200, .count (some 5)⟩
    ∧ all_patient_count (.resp 200 (.ok .absent)) = ⟨200, .count (some 0)⟩ :=
  ⟨(count_reports_total_defaulting_zero 200 (by decide) (by decide)).1 5,
   (count_reports_total_defaulting_zero 200 (by decide) (by decide)).2⟩

/-- C10: on an upstream 2xx response whose first name element carries an
empty `given` list, the read-by-id handler takes the exception branch and
replies 400 with an error body, not a patient view. -/
theorem get_2xx_empty_given_replies_400
    (p : PatientResourceData) (nd : HumanNameData)
    (rest : List HumanNameData) (code : Nat) (h1 : 200 ≤ code)
    (h2 : code < 300) (hname : p.name = .val (nd :: rest))
    (hgiven : nd.given = .val []) :
    patient_detail_get (.resp code (.ok p)) =
      ⟨400, .errorText pyErrorText⟩ := by
  have hr := raisesForStatus_eq_false_of_2xx code h1 h2
  simp [patient_detail_get, hr, firstNameData, hname, firstGiven, hgiven]

/-- Witness for C10 at a concrete resource with an empty given list. -/
theorem get_empty_given_witness :
    patient_detail_get (.resp 200 (.ok
        ⟨.val "9", .val [⟨.val [], .val "Doe"⟩], .val "female",
          .val "2000-01-01"⟩)) =
      ⟨400, .errorText pyErrorText⟩ :=
  get_2xx_empty_given_replies_400
    ⟨.val "9", .val [⟨.val [], .val "Doe"⟩], .val "female", .val "2000-01-01"⟩
    ⟨.val [], .val "Doe"⟩ [] 200 (by decide) (by decide) rfl rfl

end Pms
